import Mathlib

/-!
Verification of the Beacon Hill compliance tracker backend.

The definitions below are shallow embeddings of the Python functions in
src/backend (app.py, database.py, auth_routes.py, auth_models.py,
security.py).  Machine arithmetic is modelled with Nat/Int, Python floats
with exact rationals, SQL timestamps with integers (their ordering is all
the code uses), and fallible code with Option/Except.  Library crypto
primitives (hashlib sha256, hmac) are passed in as function parameters:
the code under verification only composes their string outputs.
-/

/-- Python truthiness of an optional string: None and the empty string are
falsy, every other string is truthy. -/
def truthyOptStr : Option String → Bool
  | none => false
  | some s => !(s == "")

/-- Python str.isspace characters stripped by int(str). -/
def isPyWs (c : Char) : Bool :=
  c == ' ' || c == '\t' || c == '\n' || c == '\r' || c == '\x0b' || c == '\x0c'

/-- Decimal value of a digit string. -/
def digitsToInt (cs : List Char) : Int :=
  cs.foldl (fun a c => 10 * a + ((c.toNat - 48 : Nat) : Int)) 0

/-- Model of the Python builtin int(str): strip surrounding whitespace,
allow one leading sign, then decimal digits.  (Digit-group underscores,
which Python also accepts, are not modelled; nothing in the repository
produces them.) -/
def parsePyInt (s : String) : Option Int :=
  match ((s.toList.dropWhile isPyWs).reverse.dropWhile isPyWs).reverse with
  | [] => none
  | c :: rest =>
    if c == '-' then
      if rest ≠ [] ∧ rest.all Char.isDigit then some (-(digitsToInt rest)) else none
    else if c == '+' then
      if rest ≠ [] ∧ rest.all Char.isDigit then some (digitsToInt rest) else none
    else
      if (c :: rest).all Char.isDigit then some (digitsToInt (c :: rest)) else none

/-- str.lower() of Python, character by character. -/
def strToLower (s : String) : String := String.mk (s.toList.map Char.toLower)

/-- str.upper() of Python, character by character. -/
def strToUpper (s : String) : String := String.mk (s.toList.map Char.toUpper)

/-- Round to the nearest integer, ties to the even integer: the behaviour
of the Python builtin round(). -/
def roundHalfEven (q : ℚ) : Int :=
  if q - (⌊q⌋ : ℚ) < 1/2 then ⌊q⌋
  else if 1/2 < q - (⌊q⌋ : ℚ) then ⌊q⌋ + 1
  else if ⌊q⌋ % 2 = 0 then ⌊q⌋ else ⌊q⌋ + 1

/-- Round to the nearest integer, ties away from zero: the behaviour of
SQL ROUND in SQLite and PostgreSQL. -/
def roundHalfAway (q : ℚ) : Int :=
  if 0 ≤ q then ⌊q + 1/2⌋ else -⌊-q + 1/2⌋

/-- Python round(x, 2) on the exact-rational model of the float x. -/
def pyRound2 (q : ℚ) : ℚ := ((roundHalfEven (q * 100) : Int) : ℚ) / 100

/-- Python round(x, 1) on the exact-rational model of the float x. -/
def pyRound1 (q : ℚ) : ℚ := ((roundHalfEven (q * 10) : Int) : ℚ) / 10

/-- SQL ROUND(x, 2) on the exact-rational model of the value x. -/
def sqlRound2 (q : ℚ) : ℚ := ((roundHalfAway (q * 100) : Int) : ℚ) / 100

/-! ### A small JSON value type, with the compact serialization used by
json.dumps(body, separators=(",", ":"), ensure_ascii=False). -/

inductive Json where
  | null
  | bool (v : Bool)
  | num (v : Int)
  | str (v : String)
  | arr (xs : List Json)
  | obj (fields : List (String × Json))

/-- One hexadecimal digit (lower case). -/
def hexDigit (n : Nat) : Char :=
  if n < 10 then Char.ofNat (48 + n) else Char.ofNat (87 + (n - 10))

/-- JSON string escaping as json.dumps does with ensure_ascii=False:
quote, backslash and control characters are escaped, everything else is
kept verbatim. -/
def escapeJsonChar (c : Char) : String :=
  if c = '"' then "\\\""
  else if c = '\\' then "\\\\"
  else if c.toNat < 32 then
    String.mk ['\\', 'u', '0', '0', hexDigit (c.toNat / 16), hexDigit (c.toNat % 16)]
  else String.singleton c

def dumpJsonString (s : String) : String :=
  "\"" ++ String.join (s.toList.map escapeJsonChar) ++ "\""

mutual

/-- Compact serialization of a JSON value (separators "," and ":"). -/
def dumpJson : Json → String
  | .null => "null"
  | .bool true => "true"
  | .bool false => "false"
  | .num v => toString v
  | .str v => dumpJsonString v
  | .arr xs => "[" ++ dumpJsonList xs ++ "]"
  | .obj fs => "\x7b" ++ dumpJsonFields fs ++ "\x7d"

def dumpJsonList : List Json → String
  | [] => ""
  | [x] => dumpJson x
  | x :: xs => dumpJson x ++ "," ++ dumpJsonList xs

def dumpJsonFields : List (String × Json) → String
  | [] => ""
  | [(k, v)] => dumpJsonString k ++ ":" ++ dumpJson v
  | (k, v) :: fs => dumpJsonString k ++ ":" ++ dumpJson v ++ "," ++ dumpJsonFields fs

end

/-! ### verify_ingest_signature (src/backend/app.py, lines 1956-2019)

The sha256 hex digest and the keyed HMAC-SHA256 hex digest are library
primitives (hashlib, hmac); they enter as parameters.  The request body
is whatever request.get_json() produced, so it is a parameter type J with
its serializer and the empty object. -/

/-- A row of the signing_keys table (auth_models.SigningKey). -/
structure SigningKeyRow where
  id : Int
  user_id : Int
  key_id : String
  secret : String
  revoked_at : Option Int
deriving DecidableEq

/-- The parts of a Flask request read by verify_ingest_signature. -/
structure IngestRequest (J : Type) where
  header_key_id : Option String
  header_timestamp : Option String
  header_signature : Option String
  method : String
  path : String
  body : Option J

/-- The triple returned by verify_ingest_signature: (is_valid,
error_message, key_record), the record being the tuple (id, user_id,
secret, key_id, revoked_at). -/
structure VerifyResult where
  is_valid : Bool
  error_message : Option String
  key_record : Option (Int × Int × String × String × Option Int)
deriving DecidableEq

def rejectVerify (msg : String) : VerifyResult :=
  { is_valid := false, error_message := some msg, key_record := none }

/-- Shallow embedding of verify_ingest_signature.  hmac_sha256_hex takes
the key and then the message; sha256_hex hashes a UTF-8 string;
json_dumps and empty_object model json.dumps with compact separators and
the default body. -/
def verify_ingest_signature {J : Type} (hmac_sha256_hex : String → String → String)
    (sha256_hex : String → String) (json_dumps : J → String) (empty_object : J)
    (current_time : Int) (signing_keys : List SigningKeyRow)
    (req : IngestRequest J) : VerifyResult :=
  if !(truthyOptStr req.header_key_id && truthyOptStr req.header_timestamp &&
       truthyOptStr req.header_signature) then
    rejectVerify "Missing required signature headers (X-Ingest-Key-Id, X-Ingest-Timestamp, X-Ingest-Signature)"
  else
    let kid := req.header_key_id.getD ""
    let timestamp := req.header_timestamp.getD ""
    let signature := req.header_signature.getD ""
    match parsePyInt timestamp with
    | none => rejectVerify "Invalid timestamp format"
    | some request_time =>
      if (current_time - request_time).natAbs > 300 then
        rejectVerify "Request timestamp too old or too far in future"
      else
        match signing_keys.find? (fun k => k.key_id == kid) with
        | none => rejectVerify "Invalid signing key ID"
        | some signing_key =>
          if signing_key.revoked_at.isSome then
            rejectVerify "Signing key has been revoked"
          else
            let secret := signing_key.secret
            let method := strToUpper req.method
            let body_json := json_dumps (req.body.getD empty_object)
            let body_hash := sha256_hex body_json
            let message := timestamp ++ "." ++ method ++ "." ++ req.path ++ "." ++ body_hash
            let expected_sig := hmac_sha256_hex secret message
            if !(signature == expected_sig) then rejectVerify "Invalid signature"
            else
              { is_valid := true, error_message := none,
                key_record := some (signing_key.id, signing_key.user_id, signing_key.secret,
                                    signing_key.key_id, signing_key.revoked_at) }

/-- The acceptance condition exactly as claim C1 words it (for comparison
with the code): headers present, timestamp in the 300-second window, a
stored non-revoked key, and the signature equal to the HMAC computed over
method + path + body-hash. -/
def claimC1Accepts {J : Type} (hmac_sha256_hex : String → String → String)
    (sha256_hex : String → String) (json_dumps : J → String) (empty_object : J)
    (current_time : Int) (signing_keys : List SigningKeyRow)
    (req : IngestRequest J) : Bool :=
  req.header_key_id.isSome && req.header_timestamp.isSome && req.header_signature.isSome &&
  (match parsePyInt (req.header_timestamp.getD "") with
   | none => false
   | some t => (current_time - t).natAbs ≤ 300) &&
  (match signing_keys.find? (fun k => k.key_id == req.header_key_id.getD "") with
   | none => false
   | some k =>
     k.revoked_at.isNone &&
     (req.header_signature.getD "" ==
       hmac_sha256_hex k.secret
         (req.method ++ req.path ++ sha256_hex (json_dumps (req.body.getD empty_object)))))

/-! ### The bill_compliance table and the window-function deduplication
(src/backend/app.py: _calculate_stats_from_db lines 75-141,
_get_bills_at_date lines 2289-2331). -/

/-- A row of the bill_compliance table: the columns the statistics and
diff queries read.  generated_at is a timestamp (only its ordering is
used); nullable columns are Option. -/
structure BCRow where
  bill_id : String
  committee_id : String
  generated_at : Int
  state : Option String
  hearing_date : Option String
  reported_out : Option Bool
  summary_present : Option Bool
  votes_present : Option Bool
deriving DecidableEq

/-- The (bill_id, committee_id) pair a row belongs to: the PARTITION BY
key of the deduplication window in _calculate_stats_from_db. -/
def pairKey (r : BCRow) : String × String := (r.bill_id, r.committee_id)

/-- Rows of the table whose window key equals k. -/
def rowsWithKey {κ : Type} [DecidableEq κ] (key : BCRow → κ) (tbl : List BCRow)
    (k : κ) : List BCRow :=
  tbl.filter (fun r => decide (key r = k))

/-- The row a ROW_NUMBER() OVER (... ORDER BY generated_at DESC) window
numbers 1 inside one partition: a row with maximal generated_at (ties
broken deterministically in favour of the earlier row, one of the
orderings SQL may produce). -/
def latestRow : List BCRow → Option BCRow
  | [] => none
  | r :: rs =>
    match latestRow rs with
    | none => some r
    | some m => if m.generated_at ≤ r.generated_at then some r else some m

/-- The distinct window keys of the table. -/
def keysOfTbl {κ : Type} [DecidableEq κ] (key : BCRow → κ) (tbl : List BCRow) : List κ :=
  (tbl.map key).dedup

/-- The rows with rn = 1 of ROW_NUMBER() OVER (PARTITION BY key ORDER BY
generated_at DESC): one latest row for each distinct key of the table. -/
def selectLatestBy {κ : Type} [DecidableEq κ] (key : BCRow → κ) (tbl : List BCRow) :
    List BCRow :=
  (keysOfTbl key tbl).filterMap (fun k => latestRow (rowsWithKey key tbl k))

/-- The latest_bills rows with rn = 1 in _calculate_stats_from_db:
partitioned by (bill_id, committee_id). -/
def selectLatest (tbl : List BCRow) : List BCRow := selectLatestBy pairKey tbl

/-- LOWER(state) = t, with SQL NULL propagation (NULL compares false). -/
def lowerStateEq (s : Option String) (t : String) : Bool :=
  match s with
  | some v => strToLower v == t
  | none => false

/-- The unknown-state test of the stats query:
LOWER(state) IN ('unknown') OR state = 'Unknown'. -/
def isUnknownState (s : Option String) : Bool :=
  lowerStateEq s "unknown" || s == some "Unknown"

/-- MAX over a list of timestamps (NULL, i.e. none, for an empty list). -/
def maxGenOf : List Int → Option Int
  | [] => none
  | x :: xs =>
    match maxGenOf xs with
    | none => some x
    | some m => some (max x m)

/-- The stats dict assembled by _calculate_stats_from_db (and cached). -/
structure GlobalStats where
  total_committees : Nat
  total_bills : Nat
  compliant_bills : Nat
  incomplete_bills : Nat
  non_compliant_bills : Nat
  unknown_bills : Nat
  overall_compliance_rate : ℚ
  latest_report_date : Option Int
  data_timestamp : Option Int
deriving DecidableEq

/-- Shallow embedding of _calculate_stats_from_db: the aggregate SQL over
latest_bills (rows with rn = 1 of the bill/committee window) followed by
the dict assembly of lines 109-129, which zeroes incomplete_bills and
folds the incomplete count into non_compliant_bills. -/
def calculate_stats_from_db (tbl : List BCRow) : GlobalStats :=
  let latest := selectLatest tbl
  let sql_total_committees := ((tbl.map (fun r => r.committee_id)).dedup).length
  let sql_total_bills := latest.length
  let sql_compliant := latest.countP (fun r => lowerStateEq r.state "compliant")
  let sql_incomplete := latest.countP (fun r => lowerStateEq r.state "incomplete")
  let sql_non_compliant := latest.countP (fun r => lowerStateEq r.state "non-compliant")
  let sql_unknown := latest.countP (fun r => isUnknownState r.state)
  let sql_rate : ℚ :=
    if 0 < sql_total_bills then
      sqlRound2 (100 * ((sql_compliant : ℚ) + (sql_unknown : ℚ)) / (sql_total_bills : ℚ))
    else 0
  let max_generated_at := maxGenOf (tbl.map (fun r => r.generated_at))
  { total_committees := sql_total_committees
    total_bills := sql_total_bills
    compliant_bills := sql_compliant
    incomplete_bills := 0
    non_compliant_bills := sql_non_compliant + sql_incomplete
    unknown_bills := sql_unknown
    overall_compliance_rate := sql_rate
    latest_report_date := max_generated_at
    data_timestamp := max_generated_at }

/-- The overall compliance rate exactly as claim C10 words it: 100 times
the compliant plus unknown latest rows over the total latest rows, 0 when
there are no rows (no rounding mentioned). -/
def claimC10OverallRate (tbl : List BCRow) : ℚ :=
  let latest := selectLatest tbl
  if latest.length = 0 then 0
  else
    100 * ((latest.countP (fun r => lowerStateEq r.state "compliant") : ℚ) +
           (latest.countP (fun r => isUnknownState r.state) : ℚ)) / (latest.length : ℚ)

/-! ### Snapshot bills and the diff reports
(src/backend/app.py: _calculate_compliance_rate lines 2280-2287,
_get_bills_at_date lines 2289-2331, _calculate_diff_report lines
2333-2391, _calculate_diff_reports lines 2393-2472). -/

/-- A bill dict as built by _get_bills_at_date (lines 2320-2331):
nullable booleans already defaulted to False, a missing or empty state
replaced by the string unknown. -/
structure Bill where
  bill_id : String
  hearing_date : Option String
  reported_out : Bool
  summary_present : Bool
  votes_present : Bool
  state : String
  generated_at : Int
deriving DecidableEq

/-- Row-to-dict conversion of _get_bills_at_date: bool(x) if x is not
None else False for the three flags, row or unknown for the state. -/
def rowToBill (r : BCRow) : Bill :=
  { bill_id := r.bill_id
    hearing_date := r.hearing_date
    reported_out := r.reported_out.getD false
    summary_present := r.summary_present.getD false
    votes_present := r.votes_present.getD false
    state := match r.state with
             | none => "unknown"
             | some s => if s == "" then "unknown" else s
    generated_at := r.generated_at }

/-- Shallow embedding of _calculate_compliance_rate: share of bills whose
state (lower-cased) is compliant or unknown, as a percentage rounded to
two decimals; 0.0 for an empty list. -/
def calculate_compliance_rate (bills : List Bill) : ℚ :=
  if bills.isEmpty then 0
  else
    let total := bills.length
    let compliant := bills.countP
      (fun b => strToLower b.state == "compliant" || strToLower b.state == "unknown")
    if 0 < total then pyRound2 (((compliant : ℚ) / (total : ℚ)) * 100) else 0

/-- The rate exactly as claim C10 words it for _calculate_compliance_rate:
100 times the compliant-or-unknown count over the length, 0.0 for an
empty list (no rounding mentioned). -/
def claimC10ListRate (bills : List Bill) : ℚ :=
  if bills.isEmpty then 0
  else
    100 * ((bills.countP
      (fun b => strToLower b.state == "compliant" || strToLower b.state == "unknown") : ℚ)) /
      (bills.length : ℚ)

/-- The bill_id list of a snapshot. -/
def billIds (bills : List Bill) : List String := bills.map (fun b => b.bill_id)

/-- The keys of the Python dict built from a snapshot list (insertion
order is irrelevant to the properties proved; duplicates collapse). -/
def dictKeys (bills : List Bill) : List String := (billIds bills).dedup

/-- Lookup in the Python dict built by a dict comprehension over the
snapshot list: the last occurrence of a bill_id wins. -/
def dictGet (bills : List Bill) (i : String) : Option Bill :=
  bills.reverse.find? (fun b => b.bill_id == i)

/-- The diff_report dict of _calculate_diff_report. -/
structure DiffReport where
  time_interval : String
  previous_date : Int
  current_date : Int
  compliance_delta : ℚ
  new_bills_count : Nat
  new_bills : List String
  bills_with_new_hearings : List String
  bills_reported_out : List String
  bills_with_new_summaries : List String
  bills_with_new_votes : List String
  analysis : Option String
deriving DecidableEq

/-- The per-bill transition tests of _calculate_diff_report lines
2360-2373: field truthy now and falsy before. -/
def newHearingTest (cb pb : Bill) : Bool :=
  truthyOptStr cb.hearing_date && !truthyOptStr pb.hearing_date

def reportedOutTest (cb pb : Bill) : Bool := cb.reported_out && !pb.reported_out

def newSummaryTest (cb pb : Bill) : Bool := cb.summary_present && !pb.summary_present

def newVotesTest (cb pb : Bill) : Bool := cb.votes_present && !pb.votes_present

/-- The loop of lines 2353-2373 for one test: bills present in both dicts
whose test fires, in current-dict key order. -/
def changedBills (test : Bill → Bill → Bool) (cur prev : List Bill) : List String :=
  (dictKeys cur).filter (fun i =>
    match dictGet prev i, dictGet cur i with
    | some pb, some cb => test cb pb
    | _, _ => false)

/-- Shallow embedding of _calculate_diff_report. -/
def calculate_diff_report (current_bills previous_bills : List Bill)
    (current_date previous_date : Int) (time_interval : String)
    (analysis : Option String) : DiffReport :=
  let current_compliance := calculate_compliance_rate current_bills
  let previous_compliance := calculate_compliance_rate previous_bills
  let compliance_delta := pyRound1 (current_compliance - previous_compliance)
  let new_bills := (dictKeys current_bills).filter
    (fun i => !((dictKeys previous_bills).contains i))
  { time_interval := time_interval
    previous_date := previous_date
    current_date := current_date
    compliance_delta := compliance_delta
    new_bills_count := new_bills.length
    new_bills := new_bills
    bills_with_new_hearings := changedBills newHearingTest current_bills previous_bills
    bills_reported_out := changedBills reportedOutTest current_bills previous_bills
    bills_with_new_summaries := changedBills newSummaryTest current_bills previous_bills
    bills_with_new_votes := changedBills newVotesTest current_bills previous_bills
    analysis := if truthyOptStr analysis then analysis else none }

/-- Number of seconds in one day: timedelta(days=1) on timestamps
measured in seconds. -/
def daySeconds : Int := 86400

/-- Shallow embedding of the find_closest_scan_date helper of
_calculate_diff_reports: MAX(generated_at) over the rows of the committee
strictly earlier than the target date, none when no such row exists. -/
def find_closest_scan_date (tbl : List BCRow) (committee_id : String)
    (target_date : Int) : Option Int :=
  maxGenOf ((tbl.filter (fun r =>
    r.committee_id == committee_id && r.generated_at < target_date)).map
      (fun r => r.generated_at))

/-- Shallow embedding of _get_bills_at_date: latest row per bill_id among
the rows of the committee at or before the target date, converted to
bill dicts. -/
def get_bills_at_date (tbl : List BCRow) (committee_id : String)
    (target_date : Int) : List Bill :=
  (selectLatestBy (fun r => r.bill_id) (tbl.filter (fun r =>
    r.committee_id == committee_id && r.generated_at ≤ target_date))).map rowToBill

/-- One interval of _calculate_diff_reports: find the scan date strictly
before current_date minus the interval, load that snapshot, and diff;
none when there is no earlier scan or the snapshot is empty. -/
def diffForInterval (tbl : List BCRow) (committee_id : String)
    (current_bills : List Bill) (current_date : Int) (days : Int)
    (time_interval : String) (analysis : Option String) : Option DiffReport :=
  match find_closest_scan_date tbl committee_id (current_date - days * daySeconds) with
  | none => none
  | some scan_date =>
    let previous_bills := get_bills_at_date tbl committee_id scan_date
    if previous_bills.isEmpty then none
    else some (calculate_diff_report current_bills previous_bills current_date
                scan_date time_interval analysis)

/-- The dict returned by _calculate_diff_reports. -/
structure DiffReports where
  daily : Option DiffReport
  weekly : Option DiffReport
  monthly : Option DiffReport
deriving DecidableEq

/-- Shallow embedding of _calculate_diff_reports: the three intervals
computed independently (each interval body is wrapped in its own
try/except in the source; the embedded bodies are total, so the except
arms that also yield None have no throw sites left). -/
def calculate_diff_reports (tbl : List BCRow) (committee_id : String)
    (current_bills : List Bill) (current_date : Int)
    (analysis : Option String) : DiffReports :=
  { daily := diffForInterval tbl committee_id current_bills current_date 1 "1 day" analysis
    weekly := diffForInterval tbl committee_id current_bills current_date 7 "7 days" none
    monthly := diffForInterval tbl committee_id current_bills current_date 30 "30 days" none }

/-! ### get_db_connection (src/backend/database.py, lines 20-77)

The context manager is modelled as a higher-order function running the
with-block body.  The body reads the committed database state and either
returns a new pending state with a value, or raises.  The model records
the commits, rollbacks and the close. -/

inductive DbType where
  | postgresql
  | sqlite
deriving DecidableEq

/-- The observable outcome of one pass through the context manager. -/
structure ConnOutcome (σ α ε : Type) where
  committed : σ
  commits : Nat
  rollbacks : Nat
  closed : Bool
  result : Except ε α

/-- Shallow embedding of get_db_connection: both branches run the body,
commit once on success, roll back (leaving the committed state unchanged)
and re-raise on an exception, and close the connection either way.  The
PostgreSQL and SQLite arms of the source differ only in how the
connection is built; their try/commit/rollback/close structure is
translated arm by arm. -/
def get_db_connection {σ α ε : Type} (db_type : DbType) (initial : σ)
    (body : σ → Except ε (σ × α)) : ConnOutcome σ α ε :=
  match db_type with
  | .postgresql =>
    match body initial with
    | .ok (pending, a) =>
      { committed := pending, commits := 1, rollbacks := 0, closed := true,
        result := .ok a }
    | .error e =>
      { committed := initial, commits := 0, rollbacks := 1, closed := true,
        result := .error e }
  | .sqlite =>
    match body initial with
    | .ok (pending, a) =>
      { committed := pending, commits := 1, rollbacks := 0, closed := true,
        result := .ok a }
    | .error e =>
      { committed := initial, commits := 0, rollbacks := 1, closed := true,
        result := .error e }

/-! ### The two-tier statistics cache
(src/backend/app.py: _get_max_generated_at lines 36-47, _get_cached_stats
lines 222-282, get_stats lines 505-543).

Timestamp values that flow through the cache comparison are either a real
timestamp or the Python None that _save_stats_to_cache stored when the
table was empty (persisted as SQL NULL, or as the literal text None by
the str() call of the SQLite branch).  The comparison the source finally
performs is str(a) <= str(b) (datetime-to-datetime comparison needs both
sides to have isoformat, and the value read back from the cache table
never is a datetime): ISO-rendered timestamps compare chronologically,
and every digit-leading rendering sorts before the text None, whose first
byte is the letter N. -/

inductive TsVal where
  | t (v : Int)
  | noneStr
deriving DecidableEq

/-- str(a) <= str(b) on cache timestamp values: ISO renderings of real
timestamps compare chronologically with each other, and any digit-leading
rendering is lexicographically below the rendering None (0x30-0x39 <
0x4E). -/
def strLe : TsVal → TsVal → Bool
  | .t a, .t b => a ≤ b
  | .t _, .noneStr => true
  | .noneStr, .t _ => false
  | .noneStr, .noneStr => true

/-- The module-level _stats_cache dict: data and data_timestamp (the
in-memory tier).  Option.none is Python None (falsy); some TsVal.noneStr
is the truthy text None read back from the database cache row. -/
structure MemStatsCache (α : Type) where
  data : Option α
  data_timestamp : Option TsVal
deriving DecidableEq

/-- SELECT MAX(generated_at) FROM bill_compliance, as _get_max_generated_at
returns it (none for an empty table). -/
def maxGeneratedAt (tbl : List BCRow) : Option TsVal :=
  (maxGenOf (tbl.map (fun r => r.generated_at))).map TsVal.t

/-- Shallow embedding of _get_cached_stats: serve the in-memory tier when
its data and timestamp are truthy, a maximum exists and compares at most
the cached timestamp; otherwise fall through to the global_stats_cache
row under the same comparison; otherwise none (cache miss). -/
def get_cached_stats {α : Type} (mem : MemStatsCache α)
    (db_row : Option (α × TsVal)) (current_max : Option TsVal) : Option α :=
  let mem_serve : Option α :=
    match mem.data, mem.data_timestamp with
    | some d, some ts =>
      match current_max with
      | some m => if strLe m ts then some d else none
      | none => none
    | _, _ => none
  match mem_serve with
  | some d => some d
  | none =>
    match db_row with
    | some (d, ts) =>
      match current_max with
      | some m => if strLe m ts then some d else none
      | none => none
    | none => none

/-- Shallow embedding of the /api/stats handler (get_stats): the cached
stats when _get_cached_stats hits, a fresh _calculate_stats_from_db
otherwise. -/
def get_stats_response (mem : MemStatsCache GlobalStats)
    (db_row : Option (GlobalStats × TsVal)) (tbl : List BCRow) : GlobalStats :=
  match get_cached_stats mem db_row (maxGeneratedAt tbl) with
  | some s => s
  | none => calculate_stats_from_db tbl

/-! ### require_role (src/backend/auth_routes.py, lines 21-44) and
User.has_role (src/backend/auth_models.py, lines 59-66). -/

/-- A row of the users table: the fields require_role reads. -/
structure AuthUser where
  id : Int
  role : String
  is_active : Bool
deriving DecidableEq

/-- role_hierarchy.get(role, default) of User.has_role. -/
def role_hierarchy_get (role : String) (default : Int) : Int :=
  if role == "user" then 0
  else if role == "privileged" then 1
  else if role == "admin" then 2
  else default

/-- User.has_role: rank of the user role (default -1) at least the rank
of the required role (default 999). -/
def has_role (u : AuthUser) (required : String) : Bool :=
  role_hierarchy_get required 999 ≤ role_hierarchy_get u.role (-1)

/-- What the require_role wrapper does with one request. -/
inductive RoleGateOutcome where
  | errorResp (status : Nat) (message : String)
  | runHandler
deriving DecidableEq

/-- Shallow embedding of the require_role wrapper.  jwt_identity none
models verify_jwt_in_request raising (flask_jwt_extended answers 401
Missing Authorization Header); otherwise it is the JWT identity string. -/
def require_role (required : String) (jwt_identity : Option String)
    (users : List AuthUser) : RoleGateOutcome :=
  match jwt_identity with
  | none => .errorResp 401 "Missing Authorization Header"
  | some ident =>
    match parsePyInt ident with
    | none => .errorResp 401 "Invalid user ID"
    | some uid =>
      match users.find? (fun u => u.id == uid) with
      | none => .errorResp 401 "User not found or inactive"
      | some u =>
        if !u.is_active then .errorResp 401 "User not found or inactive"
        else if !(has_role u required) then .errorResp 403 "Insufficient permissions"
        else .runHandler

/-- The user a valid JWT identity resolves to, when that user exists and
is active (the resolution claim C7 speaks about). -/
def resolvedActiveUser (jwt_identity : Option String) (users : List AuthUser) :
    Option AuthUser :=
  match jwt_identity with
  | none => none
  | some ident =>
    match parsePyInt ident with
    | none => none
    | some uid =>
      match users.find? (fun u => u.id == uid) with
      | none => none
      | some u => if u.is_active then some u else none

/-! ### Route error handling (src/backend/app.py get_stats lines 540-543
as the repeated catch-log-500 pattern; src/backend/security.py
internal_server_error lines 248-253). -/

/-- An HTTP response as the framework sends it: body, status, content
type, and the Location header a redirect sets. -/
structure HttpResponse where
  body : String
  status : Nat
  content_type : String
  location : Option String
deriving DecidableEq

/-- jsonify(j) with an attached status code. -/
def jsonResponse (j : Json) (status : Nat) : HttpResponse :=
  { body := dumpJson j, status := status, content_type := "application/json",
    location := none }

/-- flask.redirect(location): a 302 text/html response carrying the
Location header (the small HTML courtesy body Flask generates is
abstracted to the empty string; no claim concerns it). -/
def redirectResponse (location : String) : HttpResponse :=
  { body := "", status := 302, content_type := "text/html; charset=utf-8",
    location := some location }

/-- The catch-log-500 wrapper the JSON API route handlers of app.py use
(get_stats lines 508-543 is the cited instance; the pattern recurs in
the other /api routes): the try body either produces the JSON payload of
a 200 response or raises with a message, and the except arm answers
jsonify with error and status 500. -/
def route_with_catch (handler_body : Except String Json) : HttpResponse :=
  match handler_body with
  | .ok j => jsonResponse j 200
  | .error e => jsonResponse (Json.obj [("error", Json.str e)]) 500

/-- The verify_email handler of auth_routes.py (lines 141-222) around
its try body: the except arm (lines 208-222) rolls back, logs, and then
answers jsonify with status 500 only when the Accept header equals
application/json, and otherwise answers a redirect to the frontend login
page with error=server_error. -/
def verify_email_route (frontend_url : String) (accept_header : Option String)
    (body_result : Except String HttpResponse) : HttpResponse :=
  match body_result with
  | .ok r => r
  | .error _ =>
    if accept_header == some "application/json" then
      jsonResponse (Json.obj [("success", Json.bool false),
                              ("error", Json.str "server_error"),
                              ("message", Json.str "Verification failed")]) 500
    else
      redirectResponse (frontend_url ++ "/login?verified=false&error=server_error")

/-- The registered 500 error handler of init_error_handlers. -/
def internal_server_error : HttpResponse :=
  jsonResponse (Json.obj [("error", Json.str "Internal Server Error"),
                          ("message", Json.str "An unexpected error occurred")]) 500

/-- Flask dispatch around a handler: a response that the handler produced
is sent as is; an exception that escapes the handler is answered by the
registered 500 error handler. -/
def flask_dispatch (raw : Except String HttpResponse) : HttpResponse :=
  match raw with
  | .ok r => r
  | .error _ => internal_server_error

/-! ### Concrete inputs used by the witness and counterexample theorems. -/

/-- A deterministic stand-in for the keyed HMAC-SHA256 hex primitive:
key, then message.  Any function of this type is a legal instantiation of
the parameter. -/
def c1Hmac (key message : String) : String := key ++ ":" ++ message

/-- A deterministic stand-in for the sha256 hex primitive. -/
def c1Sha (s : String) : String := s

def c1Keys : List SigningKeyRow :=
  [{ id := 1, user_id := 7, key_id := "k1", secret := "sec", revoked_at := none }]

/-- A request correctly signed the way app.py signs: over the dot-joined
timestamp.METHOD.path.body-hash string. -/
def c1Req : IngestRequest Json :=
  { header_key_id := some "k1"
    header_timestamp := some "1000"
    header_signature := some "sec:1000.POST./ingest/basic.\x7b\x7d"
    method := "post"
    path := "/ingest/basic"
    body := none }

/-- A request with no signature headers at all. -/
def c1ReqMissing : IngestRequest Json :=
  { header_key_id := none, header_timestamp := none, header_signature := none,
    method := "POST", path := "/ingest/basic", body := none }

def c2rowOld : BCRow :=
  { bill_id := "H100", committee_id := "J33", generated_at := 1,
    state := some "compliant", hearing_date := none, reported_out := none,
    summary_present := none, votes_present := none }

def c2rowNew : BCRow :=
  { bill_id := "H100", committee_id := "J33", generated_at := 2,
    state := some "non-compliant", hearing_date := none, reported_out := some true,
    summary_present := none, votes_present := none }

def c2tbl : List BCRow := [c2rowOld, c2rowNew]

def c3prevBill : Bill :=
  { bill_id := "H1", hearing_date := none, reported_out := false,
    summary_present := false, votes_present := false, state := "unknown",
    generated_at := 10 }

def c3curBill : Bill :=
  { bill_id := "H1", hearing_date := some "2024-01-01", reported_out := true,
    summary_present := false, votes_present := false, state := "compliant",
    generated_at := 20 }

def c3newBill : Bill :=
  { bill_id := "H2", hearing_date := none, reported_out := false,
    summary_present := false, votes_present := false, state := "unknown",
    generated_at := 20 }

def c3cur : List Bill := [c3curBill, c3newBill]

def c3prev : List Bill := [c3prevBill]

def c4row1 : BCRow :=
  { bill_id := "H100", committee_id := "J33", generated_at := 100,
    state := some "compliant", hearing_date := none, reported_out := none,
    summary_present := none, votes_present := none }

def c4row2 : BCRow :=
  { bill_id := "H101", committee_id := "J33", generated_at := 90,
    state := some "unknown", hearing_date := none, reported_out := none,
    summary_present := none, votes_present := none }

def c4tbl : List BCRow := [c4row1, c4row2]

/-- A current snapshot for the diff-reports witness. -/
def c4curBills : List Bill := [c3curBill]

def c5bodyOk : Nat → Except String (Nat × Nat) := fun n => .ok (n + 1, n)

def c5bodyErr : Nat → Except String (Nat × Nat) := fun _ => .error "boom"

/-- The in-memory stats cache right after _invalidate_stats_cache. -/
def c6memEmpty : MemStatsCache GlobalStats := { data := none, data_timestamp := none }

/-- A bill_compliance table holding one row ingested after the cache row
was written. -/
def c6tbl : List BCRow :=
  [{ bill_id := "H100", committee_id := "J33", generated_at := 100,
     state := some "compliant", hearing_date := none, reported_out := none,
     summary_present := none, votes_present := none }]

def c7users : List AuthUser :=
  [{ id := 1, role := "user", is_active := true },
   { id := 2, role := "admin", is_active := true },
   { id := 3, role := "privileged", is_active := false }]

def c10tbl : List BCRow :=
  [{ bill_id := "b1", committee_id := "c", generated_at := 1,
     state := some "compliant", hearing_date := none, reported_out := none,
     summary_present := none, votes_present := none },
   { bill_id := "b2", committee_id := "c", generated_at := 1,
     state := some "non-compliant", hearing_date := none, reported_out := none,
     summary_present := none, votes_present := none },
   { bill_id := "b3", committee_id := "c", generated_at := 1,
     state := some "non-compliant", hearing_date := none, reported_out := none,
     summary_present := none, votes_present := none }]

def c10bills : List Bill :=
  [{ bill_id := "b1", hearing_date := none, reported_out := false,
     summary_present := false, votes_present := false, state := "compliant",
     generated_at := 1 },
   { bill_id := "b2", hearing_date := none, reported_out := false,
     summary_present := false, votes_present := false, state := "non-compliant",
     generated_at := 1 },
   { bill_id := "b3", hearing_date := none, reported_out := false,
     summary_present := false, votes_present := false, state := "non-compliant",
     generated_at := 1 }]

/-! ### Lemmas about the window selection. -/

theorem latestRow_eq_none_iff (l : List BCRow) : latestRow l = none ↔ l = [] := by
  cases l with
  | nil => simp [latestRow]
  | cons r rs =>
    constructor
    · intro h
      exfalso
      simp only [latestRow] at h
      cases hrs : latestRow rs with
      | none => rw [hrs] at h; exact Option.noConfusion h
      | some m =>
        rw [hrs] at h
        dsimp only at h
        by_cases hle : m.generated_at ≤ r.generated_at
        · rw [if_pos hle] at h; exact Option.noConfusion h
        · rw [if_neg hle] at h; exact Option.noConfusion h
    · intro h; simp at h

theorem latestRow_spec (l : List BCRow) :
    ∀ m, latestRow l = some m → m ∈ l ∧ ∀ x ∈ l, x.generated_at ≤ m.generated_at := by
  induction l with
  | nil => intro m h; simp [latestRow] at h
  | cons r rs ih =>
    intro m h
    simp only [latestRow] at h
    cases hrs : latestRow rs with
    | none =>
      rw [hrs] at h
      dsimp only at h
      obtain rfl : r = m := by injection h
      have hnil : rs = [] := (latestRow_eq_none_iff rs).mp hrs
      subst hnil
      simp
    | some m0 =>
      rw [hrs] at h
      dsimp only at h
      obtain ⟨hm0mem, hm0max⟩ := ih m0 hrs
      by_cases hle : m0.generated_at ≤ r.generated_at
      · rw [if_pos hle] at h
        obtain rfl : r = m := by injection h
        refine ⟨List.mem_cons_self _ _, ?_⟩
        intro x hx
        rcases List.mem_cons.mp hx with rfl | hx
        · exact le_refl _
        · exact le_trans (hm0max x hx) hle
      · rw [if_neg hle] at h
        obtain rfl : m0 = m := by injection h
        refine ⟨List.mem_cons_of_mem _ hm0mem, ?_⟩
        intro x hx
        rcases List.mem_cons.mp hx with rfl | hx
        · exact le_of_not_le hle
        · exact hm0max x hx

theorem latestRow_isSome (l : List BCRow) (h : l ≠ []) : ∃ m, latestRow l = some m := by
  cases hl : latestRow l with
  | none => exact absurd ((latestRow_eq_none_iff l).mp hl) h
  | some m => exact ⟨m, rfl⟩

theorem maxGenOf_eq_none_iff (l : List Int) : maxGenOf l = none ↔ l = [] := by
  cases l with
  | nil => simp [maxGenOf]
  | cons x xs =>
    constructor
    · intro h
      exfalso
      simp only [maxGenOf] at h
      cases hxs : maxGenOf xs with
      | none => rw [hxs] at h; exact Option.noConfusion h
      | some m => rw [hxs] at h; dsimp only at h; exact Option.noConfusion h
    · intro h; simp at h

theorem maxGenOf_spec (l : List Int) :
    ∀ m, maxGenOf l = some m → m ∈ l ∧ ∀ x ∈ l, x ≤ m := by
  induction l with
  | nil => intro m h; simp [maxGenOf] at h
  | cons x xs ih =>
    intro m h
    simp only [maxGenOf] at h
    cases hxs : maxGenOf xs with
    | none =>
      rw [hxs] at h
      dsimp only at h
      obtain rfl : x = m := by injection h
      have hnil : xs = [] := (maxGenOf_eq_none_iff xs).mp hxs
      subst hnil
      simp
    | some m0 =>
      rw [hxs] at h
      dsimp only at h
      obtain rfl : max x m0 = m := by injection h
      obtain ⟨hm0mem, hm0max⟩ := ih m0 hxs
      constructor
      · rcases max_choice x m0 with hmax | hmax <;> rw [hmax]
        · exact List.mem_cons_self _ _
        · exact List.mem_cons_of_mem _ hm0mem
      · intro y hy
        rcases List.mem_cons.mp hy with h1 | h1
        · rw [h1]; exact le_max_left _ _
        · exact le_trans (hm0max y h1) (le_max_right _ _)

theorem maxGenOf_isSome (l : List Int) (h : l ≠ []) : ∃ m, maxGenOf l = some m := by
  cases hl : maxGenOf l with
  | none => exact absurd ((maxGenOf_eq_none_iff l).mp hl) h
  | some m => exact ⟨m, rfl⟩

theorem mem_rowsWithKey {κ : Type} [DecidableEq κ] {key : BCRow → κ} {tbl : List BCRow}
    {k : κ} {r : BCRow} : r ∈ rowsWithKey key tbl k ↔ r ∈ tbl ∧ key r = k := by
  simp [rowsWithKey, List.mem_filter]

theorem selectLatestBy_map_eq {κ : Type} [DecidableEq κ] (key : BCRow → κ)
    (tbl : List BCRow) : (selectLatestBy key tbl).map key = (tbl.map key).dedup := by
  have main : ∀ ks : List κ, (∀ k ∈ ks, k ∈ tbl.map key) →
      (ks.filterMap (fun k => latestRow (rowsWithKey key tbl k))).map key = ks := by
    intro ks
    induction ks with
    | nil => simp
    | cons k ks ih =>
      intro hmem
      have hk : k ∈ tbl.map key := hmem k (List.mem_cons_self _ _)
      obtain ⟨r, hr, hkey⟩ := List.mem_map.mp hk
      have hne : rowsWithKey key tbl k ≠ [] :=
        List.ne_nil_of_mem (mem_rowsWithKey.mpr ⟨hr, hkey⟩)
      obtain ⟨m, hm⟩ := latestRow_isSome _ hne
      have hkm : key m = k := (mem_rowsWithKey.mp (latestRow_spec _ m hm).1).2
      rw [List.filterMap_cons, hm, List.map_cons, hkm,
          ih (fun k' hk' => hmem k' (List.mem_cons_of_mem _ hk'))]
  have := main ((tbl.map key).dedup) (fun k hk => List.mem_dedup.mp hk)
  simpa [selectLatestBy, keysOfTbl] using this

theorem selectLatestBy_sound {κ : Type} [DecidableEq κ] (key : BCRow → κ)
    (tbl : List BCRow) (r : BCRow) (h : r ∈ selectLatestBy key tbl) :
    r ∈ tbl ∧ ∀ s ∈ tbl, key s = key r → s.generated_at ≤ r.generated_at := by
  simp only [selectLatestBy, List.mem_filterMap] at h
  obtain ⟨k, _, hlr⟩ := h
  obtain ⟨hmem, hmax⟩ := latestRow_spec _ r hlr
  have hkr : key r = k := (mem_rowsWithKey.mp hmem).2
  refine ⟨(mem_rowsWithKey.mp hmem).1, ?_⟩
  intro s hs hkey
  exact hmax s (mem_rowsWithKey.mpr ⟨hs, by rw [hkey, hkr]⟩)

/-- C2: the window-function deduplication computes latest-per-bill-per-
committee state: the rows with rn = 1 of ROW_NUMBER() OVER (PARTITION BY
bill_id, committee_id ORDER BY generated_at DESC) carry exactly one row
per distinct (bill_id, committee_id) pair of the table, each a row of the
table with maximal generated_at inside its pair, and the global
statistics of _calculate_stats_from_db count each pair exactly once:
total_bills is the number of distinct pairs and every per-state count is
a count over the selected one-row-per-pair list. -/
theorem window_dedup_latest_per_pair (tbl : List BCRow) :
    ((selectLatest tbl).map pairKey = (tbl.map pairKey).dedup) ∧
    (∀ r, r ∈ selectLatest tbl → r ∈ tbl ∧
      ∀ s, s ∈ tbl → pairKey s = pairKey r → s.generated_at ≤ r.generated_at) ∧
    ((calculate_stats_from_db tbl).total_bills = ((tbl.map pairKey).dedup).length) ∧
    ((calculate_stats_from_db tbl).compliant_bills
      = (selectLatest tbl).countP (fun r => lowerStateEq r.state "compliant")) ∧
    ((calculate_stats_from_db tbl).non_compliant_bills
      = (selectLatest tbl).countP (fun r => lowerStateEq r.state "non-compliant")
        + (selectLatest tbl).countP (fun r => lowerStateEq r.state "incomplete")) ∧
    ((calculate_stats_from_db tbl).unknown_bills
      = (selectLatest tbl).countP (fun r => isUnknownState r.state)) := by
  refine ⟨selectLatestBy_map_eq pairKey tbl,
          fun r hr => selectLatestBy_sound pairKey tbl r hr, ?_, rfl, rfl, rfl⟩
  show (selectLatest tbl).length = ((tbl.map pairKey).dedup).length
  rw [← selectLatestBy_map_eq pairKey tbl]
  exact (List.length_map _ _).symm

/-- Witness for C2 at a concrete two-row table: the selected row is in
the table and dominates the other row of its pair. -/
theorem window_dedup_latest_per_pair_witness :
    c2rowNew ∈ c2tbl ∧ c2rowOld.generated_at ≤ c2rowNew.generated_at := by
  have h := (window_dedup_latest_per_pair c2tbl).2.1 c2rowNew (by decide)
  exact ⟨h.1, h.2 c2rowOld (by decide) (by decide)⟩

/-- C9: for every database state the stats assembled by
_calculate_stats_from_db report incomplete_bills as 0 and fold the count
of latest-per-pair rows in state incomplete into non_compliant_bills. -/
theorem stats_incomplete_folded_into_non_compliant (tbl : List BCRow) :
    (calculate_stats_from_db tbl).incomplete_bills = 0 ∧
    (calculate_stats_from_db tbl).non_compliant_bills
      = (selectLatest tbl).countP (fun r => lowerStateEq r.state "non-compliant")
        + (selectLatest tbl).countP (fun r => lowerStateEq r.state "incomplete") :=
  ⟨rfl, rfl⟩

/-- C10 counterexample: on a three-row table with one compliant and two
non-compliant bills the code yields the two-decimal rounding 33.33, not
the exact 100/3 the claim states; _calculate_compliance_rate on the
matching bill list rounds the same way. -/
theorem compliance_rate_unrounded_counterexample :
    (calculate_stats_from_db c10tbl).overall_compliance_rate ≠ claimC10OverallRate c10tbl ∧
    calculate_compliance_rate c10bills ≠ claimC10ListRate c10bills := by
  have hc : (selectLatest c10tbl).countP (fun r => lowerStateEq r.state "compliant") = 1 := by
    decide
  have hu : (selectLatest c10tbl).countP (fun r => isUnknownState r.state) = 0 := by decide
  have hl : (selectLatest c10tbl).length = 3 := by decide
  have hc2 : c10bills.countP
      (fun b => strToLower b.state == "compliant" || strToLower b.state == "unknown") = 1 := by
    decide
  have hl2 : c10bills.length = 3 := rfl
  constructor
  · simp only [calculate_stats_from_db, claimC10OverallRate, hc, hu, hl]
    norm_num [sqlRound2, roundHalfAway]
  · have hne : c10bills.isEmpty = false := rfl
    simp only [calculate_compliance_rate, claimC10ListRate, hc2, hl2, hne,
      Bool.false_eq_true, if_false]
    norm_num [pyRound2, roundHalfEven]

/-- C10 amended: the overall compliance rate of the stats query equals
the claimed 100 times (compliant plus unknown) over total, with SQL ROUND
to two decimals applied (0 when there are no rows), and
_calculate_compliance_rate equals the claimed 100 times the
compliant-or-unknown share with Python round to two decimals applied
(0.0 for an empty list). -/
theorem compliance_rates_rounded_spec (tbl : List BCRow) (bills : List Bill) :
    (calculate_stats_from_db tbl).overall_compliance_rate
      = sqlRound2 (claimC10OverallRate tbl) ∧
    calculate_compliance_rate bills = pyRound2 (claimC10ListRate bills) := by
  have hsql0 : sqlRound2 0 = 0 := by norm_num [sqlRound2, roundHalfAway]
  have hpy0 : pyRound2 0 = 0 := by norm_num [pyRound2, roundHalfEven]
  constructor
  · simp only [calculate_stats_from_db, claimC10OverallRate]
    by_cases h : (selectLatest tbl).length = 0
    · rw [if_neg (by simp [h]), if_pos h, hsql0]
    · have h0 : 0 < (selectLatest tbl).length := Nat.pos_of_ne_zero h
      rw [if_pos h0, if_neg h]
  · cases bills with
    | nil => simp [calculate_compliance_rate, claimC10ListRate, hpy0]
    | cons b bs =>
      have hpos : 0 < (b :: bs).length := Nat.succ_pos _
      simp only [calculate_compliance_rate, claimC10ListRate, List.isEmpty,
        Bool.false_eq_true, if_false, if_pos hpos]
      congr 1
      ring

/-- C5: get_db_connection commits exactly once when the with-block body
finishes, rolls back leaving the committed state unchanged and re-raises
when the body raises, and closes the connection in both cases, in the
PostgreSQL branch and in the SQLite branch alike. -/
theorem get_db_connection_transactional {σ α ε : Type} (db_type : DbType) (initial : σ)
    (body : σ → Except ε (σ × α)) :
    (get_db_connection db_type initial body).closed = true ∧
    (∀ s a, body initial = .ok (s, a) →
      (get_db_connection db_type initial body).commits = 1 ∧
      (get_db_connection db_type initial body).rollbacks = 0 ∧
      (get_db_connection db_type initial body).committed = s ∧
      (get_db_connection db_type initial body).result = .ok a) ∧
    (∀ e, body initial = .error e →
      (get_db_connection db_type initial body).commits = 0 ∧
      (get_db_connection db_type initial body).rollbacks = 1 ∧
      (get_db_connection db_type initial body).committed = initial ∧
      (get_db_connection db_type initial body).result = .error e) := by
  cases db_type <;>
    exact ⟨by cases hb : body initial with
            | ok p => cases p with
              | mk s a => simp [get_db_connection, hb]
            | error e => simp [get_db_connection, hb],
           fun s a hb => by simp [get_db_connection, hb],
           fun e hb => by simp [get_db_connection, hb]⟩

/-- Witness for C5: a successful body commits its pending state once; a
raising body rolls back to the initial state. -/
theorem get_db_connection_transactional_witness :
    ((get_db_connection DbType.sqlite 0 c5bodyOk).commits = 1 ∧
     (get_db_connection DbType.sqlite 0 c5bodyOk).committed = 1) ∧
    ((get_db_connection DbType.postgresql 5 c5bodyErr).rollbacks = 1 ∧
     (get_db_connection DbType.postgresql 5 c5bodyErr).committed = 5) := by
  have h1 := (get_db_connection_transactional DbType.sqlite 0 c5bodyOk).2.1 1 0 rfl
  have h2 := (get_db_connection_transactional DbType.postgresql 5 c5bodyErr).2.2 "boom" rfl
  exact ⟨⟨h1.1, h1.2.2.1⟩, ⟨h2.2.1, h2.2.2.1⟩⟩

/-- C8 counterexample: the verify_email handler catches an exception and
answers a 302 text/html redirect to the frontend login page — not a JSON
error body with status 500 — when the request does not carry
Accept: application/json, so the universal catch-log-500-JSON claim
fails on this route handler. -/
theorem verify_email_redirect_counterexample :
    (verify_email_route "http://localhost:5173" none (Except.error "boom")).status = 302 ∧
    (verify_email_route "http://localhost:5173" none
      (Except.error "boom")).content_type ≠ "application/json" ∧
    (verify_email_route "http://localhost:5173" none (Except.error "boom")).location
      = some "http://localhost:5173/login?verified=false&error=server_error" := by
  refine ⟨by decide, by decide, by decide⟩

/-- C8 amended: a route handler wrapped in the catch-log-500 pattern
always answers JSON and answers status 500 whenever its body raised; an
exception escaping a handler is answered by the registered 500 error
handler, whose response is JSON with status 500; the exception arm of
verify_email answers JSON 500 exactly when the request Accept header is
application/json and otherwise a 302 redirect to the frontend login page
with error=server_error. -/
theorem route_error_handling_json_500 (handler_body : Except String Json)
    (raw : Except String HttpResponse) (frontend_url : String)
    (accept_header : Option String) (verify_body : Except String HttpResponse) :
    (route_with_catch handler_body).content_type = "application/json" ∧
    (∀ e, handler_body = .error e → (route_with_catch handler_body).status = 500) ∧
    (∀ e, raw = .error e → flask_dispatch raw = internal_server_error) ∧
    internal_server_error.status = 500 ∧
    internal_server_error.content_type = "application/json" ∧
    (∀ e, verify_body = .error e →
      (accept_header = some "application/json" →
        (verify_email_route frontend_url accept_header verify_body).status = 500 ∧
        (verify_email_route frontend_url accept_header verify_body).content_type
          = "application/json") ∧
      (accept_header ≠ some "application/json" →
        (verify_email_route frontend_url accept_header verify_body).status = 302 ∧
        (verify_email_route frontend_url accept_header verify_body).content_type
          = "text/html; charset=utf-8" ∧
        (verify_email_route frontend_url accept_header verify_body).location
          = some (frontend_url ++ "/login?verified=false&error=server_error"))) := by
  refine ⟨?_, ?_, ?_, rfl, rfl, ?_⟩
  · cases handler_body <;> rfl
  · intro e he; rw [he]; rfl
  · intro e he; rw [he]; rfl
  · intro e he
    constructor
    · intro hacc
      rw [he]
      simp [verify_email_route, hacc, jsonResponse]
    · intro hacc
      have hbe : (accept_header == some "application/json") = false :=
        beq_eq_false_iff_ne.mpr hacc
      rw [he]
      simp [verify_email_route, hbe, redirectResponse]

/-- Witness for C8: a raising handler body is answered with 500, an
escaping exception is answered by the registered handler, and the
verify_email except arm answers 500 under Accept application/json and
302 without it. -/
theorem route_error_handling_json_500_witness :
    (route_with_catch (Except.error "boom")).status = 500 ∧
    flask_dispatch (Except.error "boom") = internal_server_error ∧
    (verify_email_route "http://localhost:5173" (some "application/json")
      (Except.error "boom")).status = 500 ∧
    (verify_email_route "http://localhost:5173" none (Except.error "crash")).status = 302 := by
  have h := route_error_handling_json_500 (Except.error "boom") (Except.error "boom")
    "http://localhost:5173" (some "application/json") (Except.error "boom")
  have h2 := route_error_handling_json_500 (Except.error "boom") (Except.error "boom")
    "http://localhost:5173" none (Except.error "crash")
  refine ⟨h.2.1 "boom" rfl, h.2.2.1 "boom" rfl, ?_, ?_⟩
  · exact ((h.2.2.2.2.2 "boom" rfl).1 rfl).1
  · exact ((h2.2.2.2.2.2 "crash" rfl).2 (by decide)).1

/-- C7: require_role answers 401 exactly when no valid JWT identity
resolves to an existing active user, answers 403 exactly when the
resolved user is active but lacks the required role, and runs the wrapped
handler exactly when the resolved active user has the required role or a
higher one. -/
theorem require_role_gating (required : String) (jwt_identity : Option String)
    (users : List AuthUser) :
    ((∃ m, require_role required jwt_identity users = .errorResp 401 m) ↔
      resolvedActiveUser jwt_identity users = none) ∧
    ((∃ m, require_role required jwt_identity users = .errorResp 403 m) ↔
      (∃ u, resolvedActiveUser jwt_identity users = some u ∧ has_role u required = false)) ∧
    (require_role required jwt_identity users = .runHandler ↔
      (∃ u, resolvedActiveUser jwt_identity users = some u ∧ has_role u required = true)) := by
  cases jwt_identity with
  | none => simp [require_role, resolvedActiveUser]
  | some ident =>
    cases hp : parsePyInt ident with
    | none => simp [require_role, resolvedActiveUser, hp]
    | some uid =>
      cases hf : users.find? (fun u => u.id == uid) with
      | none => simp [require_role, resolvedActiveUser, hp, hf]
      | some u =>
        by_cases ha : u.is_active
        · by_cases hr : has_role u required
          · simp [require_role, resolvedActiveUser, hp, hf, ha, hr]
          · simp [require_role, resolvedActiveUser, hp, hf, ha, hr]
        · simp [require_role, resolvedActiveUser, hp, hf, ha]

/-- Witness for C7: an active admin passes a privileged gate; an inactive
privileged user resolves to no active user and is answered 401. -/
theorem require_role_gating_witness :
    require_role "privileged" (some "2") c7users = .runHandler ∧
    resolvedActiveUser (some "3") c7users = none := by
  have h1 := (require_role_gating "privileged" (some "2") c7users).2.2
  have h2 := (require_role_gating "privileged" (some "3") c7users).1
  exact ⟨h1.mpr ⟨{ id := 2, role := "admin", is_active := true }, by decide, by decide⟩,
         h2.mp ⟨"User not found or inactive", by decide⟩⟩

/-- C1 counterexample: a request signed exactly the way app.py signs
(HMAC over the dot-joined string timestamp.METHOD.path.body-hash) is
accepted by the code, while the signature check the claim states (HMAC
over method + path + body-hash, no timestamp) does not hold for it. -/
theorem verify_ingest_signature_message_counterexample :
    (verify_ingest_signature c1Hmac c1Sha dumpJson (Json.obj []) 1000 c1Keys
      c1Req).is_valid = true ∧
    claimC1Accepts c1Hmac c1Sha dumpJson (Json.obj []) 1000 c1Keys c1Req = false := by
  constructor <;> decide

/-- C1 amended: verify_ingest_signature accepts exactly when the three
headers are present with non-empty values, the timestamp parses as an
integer within 300 seconds of the server time, the key id names a
stored non-revoked signing key, and the signature equals the hex HMAC,
keyed by that key secret, over the dot-joined string
timestamp.METHOD.path.body-hash (raw timestamp header first, method
upper-cased, body-hash the sha256 hex of the compact JSON serialization
of the body, an absent body serialized as the empty object); and on any
rejection no signing-key record is returned. -/
theorem verify_ingest_signature_spec {J : Type} (hmac_sha256_hex : String → String → String)
    (sha256_hex : String → String) (json_dumps : J → String) (empty_object : J)
    (current_time : Int) (signing_keys : List SigningKeyRow) (req : IngestRequest J) :
    ((verify_ingest_signature hmac_sha256_hex sha256_hex json_dumps empty_object
        current_time signing_keys req).is_valid = true ↔
      (truthyOptStr req.header_key_id = true ∧ truthyOptStr req.header_timestamp = true ∧
       truthyOptStr req.header_signature = true ∧
       (∃ t, parsePyInt (req.header_timestamp.getD "") = some t ∧
         (current_time - t).natAbs ≤ 300) ∧
       (∃ k, signing_keys.find? (fun k => k.key_id == req.header_key_id.getD "") = some k ∧
         k.revoked_at = none ∧
         req.header_signature.getD ""
           = hmac_sha256_hex k.secret
               ((req.header_timestamp.getD "") ++ "." ++ strToUpper req.method ++ "." ++
                req.path ++ "." ++
                sha256_hex (json_dumps (req.body.getD empty_object)))))) ∧
    ((verify_ingest_signature hmac_sha256_hex sha256_hex json_dumps empty_object
        current_time signing_keys req).is_valid = false →
      (verify_ingest_signature hmac_sha256_hex sha256_hex json_dumps empty_object
        current_time signing_keys req).key_record = none) := by
  by_cases hA1 : truthyOptStr req.header_key_id = true
  case neg =>
    constructor
    · simp [verify_ingest_signature, hA1, rejectVerify]
    · intro _; simp [verify_ingest_signature, hA1, rejectVerify]
  case pos =>
  by_cases hA2 : truthyOptStr req.header_timestamp = true
  case neg =>
    constructor
    · simp [verify_ingest_signature, hA1, hA2, rejectVerify]
    · intro _; simp [verify_ingest_signature, hA1, hA2, rejectVerify]
  case pos =>
  by_cases hA3 : truthyOptStr req.header_signature = true
  case neg =>
    constructor
    · simp [verify_ingest_signature, hA1, hA2, hA3, rejectVerify]
    · intro _; simp [verify_ingest_signature, hA1, hA2, hA3, rejectVerify]
  case pos =>
  cases hp : parsePyInt (req.header_timestamp.getD "") with
  | none =>
    constructor
    · simp [verify_ingest_signature, hA1, hA2, hA3, hp, rejectVerify]
    · intro _; simp [verify_ingest_signature, hA1, hA2, hA3, hp, rejectVerify]
  | some t =>
    by_cases hw : (current_time - t).natAbs ≤ 300
    case neg =>
      have hw' : (current_time - t).natAbs > 300 := Nat.lt_of_not_le hw
      constructor
      · simp [verify_ingest_signature, hA1, hA2, hA3, hp, hw', hw, rejectVerify]
      · intro _; simp [verify_ingest_signature, hA1, hA2, hA3, hp, hw', rejectVerify]
    case pos =>
    have hw' : ¬((current_time - t).natAbs > 300) := Nat.not_lt.mpr hw
    cases hf : signing_keys.find? (fun k => k.key_id == req.header_key_id.getD "") with
    | none =>
      constructor
      · simp [verify_ingest_signature, hA1, hA2, hA3, hp, hw', hf, rejectVerify]
      · intro _; simp [verify_ingest_signature, hA1, hA2, hA3, hp, hw', hf, rejectVerify]
    | some k =>
      cases hr : k.revoked_at with
      | some d =>
        constructor
        · simp [verify_ingest_signature, hA1, hA2, hA3, hp, hw, hw', hf, hr, rejectVerify]
        · intro _; simp [verify_ingest_signature, hA1, hA2, hA3, hp, hw', hf, hr, rejectVerify]
      | none =>
        by_cases hs : req.header_signature.getD ""
            = hmac_sha256_hex k.secret
                ((req.header_timestamp.getD "") ++ "." ++ strToUpper req.method ++ "." ++
                 req.path ++ "." ++ sha256_hex (json_dumps (req.body.getD empty_object)))
        · constructor
          · simp [verify_ingest_signature, hA1, hA2, hA3, hp, hw, hw', hf, hr, hs]
          · intro hfalse
            simp [verify_ingest_signature, hA1, hA2, hA3, hp, hw', hf, hr, hs] at hfalse
        · constructor
          · simp [verify_ingest_signature, hA1, hA2, hA3, hp, hw, hw', hf, hr, hs, rejectVerify]
          · intro _
            simp [verify_ingest_signature, hA1, hA2, hA3, hp, hw', hf, hr, hs, rejectVerify]

/-- Witness for C1: the missing-header request is rejected with no key
record; the correctly signed request is accepted via the amended
characterization. -/
theorem verify_ingest_signature_spec_witness :
    (verify_ingest_signature c1Hmac c1Sha dumpJson (Json.obj []) 1000 c1Keys
      c1ReqMissing).key_record = none ∧
    (verify_ingest_signature c1Hmac c1Sha dumpJson (Json.obj []) 1000 c1Keys
      c1Req).is_valid = true := by
  constructor
  · exact (verify_ingest_signature_spec c1Hmac c1Sha dumpJson (Json.obj []) 1000 c1Keys
      c1ReqMissing).2 (by decide)
  · exact (verify_ingest_signature_spec c1Hmac c1Sha dumpJson (Json.obj []) 1000 c1Keys
      c1Req).1.mpr
      ⟨by decide, by decide, by decide,
       ⟨1000, by decide, by decide⟩,
       ⟨{ id := 1, user_id := 7, key_id := "k1", secret := "sec", revoked_at := none },
        by decide, rfl, by decide⟩⟩

/-- C6 (code bug): once the stats cache has been warmed on an empty
table, the global_stats_cache row carries the text None as its
data_timestamp; after a compliance row is ingested, _get_cached_stats
still serves that stale row, because the string-comparison fallback
sorts the digit-leading ISO timestamp below the text None, so
/api/stats answers the stale empty-table statistics (total_bills 0)
although recomputing would give total_bills 1. -/
theorem stats_cache_serves_stale_after_empty_warmup :
    strLe (TsVal.t 100) TsVal.noneStr = true ∧
    maxGeneratedAt c6tbl = some (TsVal.t 100) ∧
    (get_stats_response c6memEmpty (some (calculate_stats_from_db [], TsVal.noneStr))
      c6tbl).total_bills = 0 ∧
    (calculate_stats_from_db c6tbl).total_bills = 1 := by
  refine ⟨rfl, rfl, ?_, ?_⟩ <;> decide

/-! ### Lemmas about the snapshot dict lookups. -/

theorem find?_eq_some_of_unique {α : Type} (p : α → Bool) (l : List α) (b : α)
    (hb : b ∈ l) (hpb : p b = true) (huniq : ∀ x ∈ l, p x = true → x = b) :
    l.find? p = some b := by
  induction l with
  | nil => simp at hb
  | cons a as ih =>
    by_cases hpa : p a = true
    · have hab : a = b := huniq a (List.mem_cons_self _ _) hpa
      rw [List.find?_cons_of_pos _ hpa, hab]
    · have hb' : b ∈ as := by
        rcases List.mem_cons.mp hb with h | h
        · exact absurd (h ▸ hpb) hpa
        · exact h
      rw [List.find?_cons_of_neg _ (by simpa using hpa)]
      exact ih hb' (fun x hx hpx => huniq x (List.mem_cons_of_mem _ hx) hpx)

theorem contains_iff_mem_str (l : List String) (i : String) :
    l.contains i = true ↔ i ∈ l := by
  simp [List.elem_iff]

theorem dictGet_eq_some_iff (bills : List Bill) (i : String)
    (h : (billIds bills).Nodup) (b : Bill) :
    dictGet bills i = some b ↔ (b ∈ bills ∧ b.bill_id = i) := by
  have hrevN : (bills.reverse.map (fun b => b.bill_id)).Nodup := by
    rw [List.map_reverse]
    exact List.nodup_reverse.mpr h
  constructor
  · intro hf
    have hmem := List.mem_of_find?_eq_some hf
    have hpb := List.find?_some hf
    exact ⟨List.mem_reverse.mp hmem, by simpa using hpb⟩
  · rintro ⟨hbmem, hbid⟩
    apply find?_eq_some_of_unique _ _ b (List.mem_reverse.mpr hbmem) (by simpa using hbid)
    intro x hx hpx
    have hxid : x.bill_id = i := by simpa using hpx
    exact List.inj_on_of_nodup_map hrevN hx (List.mem_reverse.mpr hbmem)
      (by rw [hxid, hbid])

theorem dictGet_eq_none_iff (bills : List Bill) (i : String) :
    dictGet bills i = none ↔ i ∉ billIds bills := by
  unfold dictGet billIds
  rw [List.find?_eq_none]
  constructor
  · intro h hmem
    obtain ⟨b, hb, hid⟩ := List.mem_map.mp hmem
    exact h b (List.mem_reverse.mpr hb) (by simpa using hid)
  · intro h b hb hbeq
    exact h (List.mem_map.mpr ⟨b, List.mem_reverse.mp hb, by simpa using hbeq⟩)

theorem changedBills_mem (test : Bill → Bill → Bool) (cur prev : List Bill)
    (hcur : (billIds cur).Nodup) (hprev : (billIds prev).Nodup) (i : String) :
    i ∈ changedBills test cur prev ↔
      ∃ cb pb, cb ∈ cur ∧ pb ∈ prev ∧ cb.bill_id = i ∧ pb.bill_id = i ∧
        test cb pb = true := by
  unfold changedBills
  rw [List.mem_filter]
  constructor
  · rintro ⟨hkey, hcond⟩
    cases hpg : dictGet prev i with
    | none => rw [hpg] at hcond; simp at hcond
    | some pb =>
      cases hcg : dictGet cur i with
      | none => rw [hpg, hcg] at hcond; simp at hcond
      | some cb =>
        rw [hpg, hcg] at hcond
        dsimp only at hcond
        obtain ⟨hpbm, hpbid⟩ := (dictGet_eq_some_iff prev i hprev pb).mp hpg
        obtain ⟨hcbm, hcbid⟩ := (dictGet_eq_some_iff cur i hcur cb).mp hcg
        exact ⟨cb, pb, hcbm, hpbm, hcbid, hpbid, hcond⟩
  · rintro ⟨cb, pb, hcbm, hpbm, hcbid, hpbid, htest⟩
    have hcg : dictGet cur i = some cb := (dictGet_eq_some_iff cur i hcur cb).mpr ⟨hcbm, hcbid⟩
    have hpg : dictGet prev i = some pb := (dictGet_eq_some_iff prev i hprev pb).mpr ⟨hpbm, hpbid⟩
    constructor
    · exact List.mem_dedup.mpr (List.mem_map.mpr ⟨cb, hcbm, hcbid⟩)
    · rw [hpg, hcg]
      exact htest

theorem mem_new_bills_iff (cur prev : List Bill) (i : String) :
    i ∈ (dictKeys cur).filter (fun i => !((dictKeys prev).contains i)) ↔
      (i ∈ billIds cur ∧ i ∉ billIds prev) := by
  rw [List.mem_filter]
  constructor
  · rintro ⟨hmem, hnc⟩
    refine ⟨List.mem_dedup.mp hmem, fun hmemp => ?_⟩
    have : (dictKeys prev).contains i = true :=
      (contains_iff_mem_str _ _).mpr (List.mem_dedup.mpr hmemp)
    rw [this] at hnc
    exact Bool.noConfusion hnc
  · rintro ⟨hmem, hnmem⟩
    refine ⟨List.mem_dedup.mpr hmem, ?_⟩
    have : (dictKeys prev).contains i = false := by
      rw [← Bool.not_eq_true]
      intro hc
      exact hnmem (List.mem_dedup.mp ((contains_iff_mem_str _ _).mp hc))
    rw [this]
    rfl

theorem changedBills_subset (test : Bill → Bill → Bool) (cur prev : List Bill)
    (i : String) (h : i ∈ changedBills test cur prev) : i ∈ billIds cur := by
  unfold changedBills at h
  exact List.mem_dedup.mp (List.mem_filter.mp h).1

/-- C3: the diff report of _calculate_diff_report satisfies: new_bills is
exactly the set of bill ids in the current snapshot and not the previous
one (new_bills_count its size); the four change lists are exactly the
bills present in both snapshots whose respective field is truthy now and
falsy before; compliance_delta is the difference of the two snapshot
compliance rates rounded to one decimal; and ids absent from the current
snapshot appear in none of the lists. -/
theorem diff_report_spec (cur prev : List Bill) (current_date previous_date : Int)
    (time_interval : String) (analysis : Option String)
    (hcur : (billIds cur).Nodup) (hprev : (billIds prev).Nodup) :
    (∀ i, i ∈ (calculate_diff_report cur prev current_date previous_date time_interval
        analysis).new_bills ↔ (i ∈ billIds cur ∧ i ∉ billIds prev)) ∧
    ((calculate_diff_report cur prev current_date previous_date time_interval
        analysis).new_bills_count
      = (calculate_diff_report cur prev current_date previous_date time_interval
          analysis).new_bills.length) ∧
    ((calculate_diff_report cur prev current_date previous_date time_interval
        analysis).new_bills.Nodup) ∧
    (∀ i, i ∈ (calculate_diff_report cur prev current_date previous_date time_interval
        analysis).bills_with_new_hearings ↔
      ∃ cb pb, cb ∈ cur ∧ pb ∈ prev ∧ cb.bill_id = i ∧ pb.bill_id = i ∧
        truthyOptStr cb.hearing_date = true ∧ truthyOptStr pb.hearing_date = false) ∧
    (∀ i, i ∈ (calculate_diff_report cur prev current_date previous_date time_interval
        analysis).bills_reported_out ↔
      ∃ cb pb, cb ∈ cur ∧ pb ∈ prev ∧ cb.bill_id = i ∧ pb.bill_id = i ∧
        cb.reported_out = true ∧ pb.reported_out = false) ∧
    (∀ i, i ∈ (calculate_diff_report cur prev current_date previous_date time_interval
        analysis).bills_with_new_summaries ↔
      ∃ cb pb, cb ∈ cur ∧ pb ∈ prev ∧ cb.bill_id = i ∧ pb.bill_id = i ∧
        cb.summary_present = true ∧ pb.summary_present = false) ∧
    (∀ i, i ∈ (calculate_diff_report cur prev current_date previous_date time_interval
        analysis).bills_with_new_votes ↔
      ∃ cb pb, cb ∈ cur ∧ pb ∈ prev ∧ cb.bill_id = i ∧ pb.bill_id = i ∧
        cb.votes_present = true ∧ pb.votes_present = false) ∧
    ((calculate_diff_report cur prev current_date previous_date time_interval
        analysis).compliance_delta
      = pyRound1 (calculate_compliance_rate cur - calculate_compliance_rate prev)) ∧
    (∀ i, i ∉ billIds cur →
      i ∉ (calculate_diff_report cur prev current_date previous_date time_interval
            analysis).new_bills ∧
      i ∉ (calculate_diff_report cur prev current_date previous_date time_interval
            analysis).bills_with_new_hearings ∧
      i ∉ (calculate_diff_report cur prev current_date previous_date time_interval
            analysis).bills_reported_out ∧
      i ∉ (calculate_diff_report cur prev current_date previous_date time_interval
            analysis).bills_with_new_summaries ∧
      i ∉ (calculate_diff_report cur prev current_date previous_date time_interval
            analysis).bills_with_new_votes) := by
  have e0 : (calculate_diff_report cur prev current_date previous_date time_interval
      analysis).new_bills
      = (dictKeys cur).filter (fun i => !((dictKeys prev).contains i)) := rfl
  have e1 : (calculate_diff_report cur prev current_date previous_date time_interval
      analysis).bills_with_new_hearings = changedBills newHearingTest cur prev := rfl
  have e2 : (calculate_diff_report cur prev current_date previous_date time_interval
      analysis).bills_reported_out = changedBills reportedOutTest cur prev := rfl
  have e3 : (calculate_diff_report cur prev current_date previous_date time_interval
      analysis).bills_with_new_summaries = changedBills newSummaryTest cur prev := rfl
  have e4 : (calculate_diff_report cur prev current_date previous_date time_interval
      analysis).bills_with_new_votes = changedBills newVotesTest cur prev := rfl
  refine ⟨?_, rfl, ?_, ?_, ?_, ?_, ?_, rfl, ?_⟩
  · intro i
    rw [e0]
    exact mem_new_bills_iff cur prev i
  · rw [e0]
    exact (List.nodup_dedup _).filter _
  · intro i
    rw [e1, changedBills_mem newHearingTest cur prev hcur hprev i]
    apply exists_congr; intro cb; apply exists_congr; intro pb
    simp [newHearingTest, Bool.and_eq_true, Bool.not_eq_true', and_assoc]
  · intro i
    rw [e2, changedBills_mem reportedOutTest cur prev hcur hprev i]
    apply exists_congr; intro cb; apply exists_congr; intro pb
    simp [reportedOutTest, Bool.and_eq_true, Bool.not_eq_true', and_assoc]
  · intro i
    rw [e3, changedBills_mem newSummaryTest cur prev hcur hprev i]
    apply exists_congr; intro cb; apply exists_congr; intro pb
    simp [newSummaryTest, Bool.and_eq_true, Bool.not_eq_true', and_assoc]
  · intro i
    rw [e4, changedBills_mem newVotesTest cur prev hcur hprev i]
    apply exists_congr; intro cb; apply exists_congr; intro pb
    simp [newVotesTest, Bool.and_eq_true, Bool.not_eq_true', and_assoc]
  · intro i hni
    refine ⟨?_, ?_, ?_, ?_, ?_⟩
    · rw [e0]
      intro hmem
      exact hni (List.mem_dedup.mp (List.mem_filter.mp hmem).1)
    · rw [e1]; intro hmem; exact hni (changedBills_subset _ _ _ _ hmem)
    · rw [e2]; intro hmem; exact hni (changedBills_subset _ _ _ _ hmem)
    · rw [e3]; intro hmem; exact hni (changedBills_subset _ _ _ _ hmem)
    · rw [e4]; intro hmem; exact hni (changedBills_subset _ _ _ _ hmem)

/-- Witness for C3 at concrete snapshots: the fresh bill lands in
new_bills and the bill whose hearing date appeared lands in
bills_with_new_hearings. -/
theorem diff_report_spec_witness :
    "H2" ∈ (calculate_diff_report c3cur c3prev 20 10 "1 day" none).new_bills ∧
    "H1" ∈ (calculate_diff_report c3cur c3prev 20 10 "1 day" none).bills_with_new_hearings := by
  have h := diff_report_spec c3cur c3prev 20 10 "1 day" none (by decide) (by decide)
  refine ⟨(h.1 "H2").mpr (by decide), ?_⟩
  exact (h.2.2.2.1 "H1").mpr
    ⟨c3curBill, c3prevBill, by decide, by decide, rfl, rfl, by decide, by decide⟩

/-! ### Lemmas about the diff-report interval selection. -/

theorem find_closest_scan_date_iff (tbl : List BCRow) (committee_id : String)
    (t d : Int) :
    find_closest_scan_date tbl committee_id t = some d ↔
      ((∃ r, r ∈ tbl ∧ r.committee_id = committee_id ∧ r.generated_at = d ∧ d < t) ∧
       (∀ r, r ∈ tbl → r.committee_id = committee_id → r.generated_at < t →
         r.generated_at ≤ d)) := by
  unfold find_closest_scan_date
  constructor
  · intro h
    obtain ⟨hmem, hmax⟩ := maxGenOf_spec _ d h
    obtain ⟨r, hrf, hrd⟩ := List.mem_map.mp hmem
    obtain ⟨hrt, hrp⟩ := List.mem_filter.mp hrf
    obtain ⟨hrc, hrlt⟩ : r.committee_id = committee_id ∧ r.generated_at < t := by
      simpa using hrp
    refine ⟨⟨r, hrt, hrc, hrd, by rw [← hrd]; exact hrlt⟩, ?_⟩
    intro r' hr' hc' hlt'
    exact hmax _ (List.mem_map.mpr ⟨r', List.mem_filter.mpr ⟨hr', by simp [hc', hlt']⟩, rfl⟩)
  · rintro ⟨⟨r, hr, hc, hd, hdt⟩, hub⟩
    have hrf : r ∈ tbl.filter (fun r =>
        r.committee_id == committee_id && decide (r.generated_at < t)) :=
      List.mem_filter.mpr ⟨hr, by simp [hc]; rw [hd]; exact hdt⟩
    have hne : (tbl.filter (fun r =>
        r.committee_id == committee_id && decide (r.generated_at < t))).map
          (fun r => r.generated_at) ≠ [] :=
      List.ne_nil_of_mem (List.mem_map.mpr ⟨r, hrf, rfl⟩)
    obtain ⟨m, hm⟩ := maxGenOf_isSome _ hne
    obtain ⟨hmmem, hmmax⟩ := maxGenOf_spec _ m hm
    obtain ⟨r', hr'f, hr'm⟩ := List.mem_map.mp hmmem
    obtain ⟨hr't, hr'p⟩ := List.mem_filter.mp hr'f
    obtain ⟨hr'c, hr'lt⟩ : r'.committee_id = committee_id ∧ r'.generated_at < t := by
      simpa using hr'p
    have hmd : m ≤ d := by
      rw [← hr'm]
      exact hub r' hr't hr'c hr'lt
    have hdm : d ≤ m := by
      rw [← hd]
      exact hmmax _ (List.mem_map.mpr ⟨r, hrf, rfl⟩)
    rw [hm, le_antisymm hmd hdm]

theorem diffForInterval_spec (tbl : List BCRow) (committee_id : String)
    (current_bills : List Bill) (current_date days : Int) (time_interval : String)
    (analysis : Option String) :
    (diffForInterval tbl committee_id current_bills current_date days time_interval
        analysis = none ↔
      (find_closest_scan_date tbl committee_id (current_date - days * daySeconds) = none ∨
       ∃ d, find_closest_scan_date tbl committee_id (current_date - days * daySeconds)
              = some d ∧
            get_bills_at_date tbl committee_id d = [])) ∧
    (∀ rep, diffForInterval tbl committee_id current_bills current_date days time_interval
        analysis = some rep →
      ∃ d, find_closest_scan_date tbl committee_id (current_date - days * daySeconds)
             = some d ∧
           get_bills_at_date tbl committee_id d ≠ [] ∧
           rep = calculate_diff_report current_bills (get_bills_at_date tbl committee_id d)
                   current_date d time_interval analysis) := by
  unfold diffForInterval
  cases hf : find_closest_scan_date tbl committee_id (current_date - days * daySeconds) with
  | none => simp
  | some d =>
    cases hg : get_bills_at_date tbl committee_id d with
    | nil => simp [hg]
    | cons b bs =>
      constructor
      · simp [hg]
      · intro rep hrep
        dsimp only at hrep
        rw [hg] at hrep
        simp only [List.isEmpty_cons, Bool.false_eq_true, if_false, Option.some.injEq]
          at hrep
        refine ⟨d, rfl, by simp [hg], ?_⟩
        rw [hg]
        exact hrep.symm

/-- C4: each of the daily, weekly and monthly diff reports is computed
independently against the snapshot at the latest scan date of the
committee strictly earlier than current_date minus 1, 7 and 30 days
respectively; an interval is None exactly when no such earlier scan
exists or its snapshot holds no bills, and otherwise it is the diff of
the current bills against that snapshot.  (Each interval body is wrapped
in its own try/except in the source; the embedded bodies are total, so no
exception path remains.)  The last conjunct characterizes the selected
scan date as the maximal generated_at strictly below the target. -/
theorem diff_reports_intervals_spec (tbl : List BCRow) (committee_id : String)
    (current_bills : List Bill) (current_date : Int) (analysis : Option String) :
    ((calculate_diff_reports tbl committee_id current_bills current_date analysis).daily
        = none ↔
      (find_closest_scan_date tbl committee_id (current_date - 1 * daySeconds) = none ∨
       ∃ d, find_closest_scan_date tbl committee_id (current_date - 1 * daySeconds)
              = some d ∧ get_bills_at_date tbl committee_id d = [])) ∧
    (∀ rep, (calculate_diff_reports tbl committee_id current_bills current_date
        analysis).daily = some rep →
      ∃ d, find_closest_scan_date tbl committee_id (current_date - 1 * daySeconds)
             = some d ∧ get_bills_at_date tbl committee_id d ≠ [] ∧
           rep = calculate_diff_report current_bills (get_bills_at_date tbl committee_id d)
                   current_date d "1 day" analysis) ∧
    ((calculate_diff_reports tbl committee_id current_bills current_date analysis).weekly
        = none ↔
      (find_closest_scan_date tbl committee_id (current_date - 7 * daySeconds) = none ∨
       ∃ d, find_closest_scan_date tbl committee_id (current_date - 7 * daySeconds)
              = some d ∧ get_bills_at_date tbl committee_id d = [])) ∧
    (∀ rep, (calculate_diff_reports tbl committee_id current_bills current_date
        analysis).weekly = some rep →
      ∃ d, find_closest_scan_date tbl committee_id (current_date - 7 * daySeconds)
             = some d ∧ get_bills_at_date tbl committee_id d ≠ [] ∧
           rep = calculate_diff_report current_bills (get_bills_at_date tbl committee_id d)
                   current_date d "7 days" none) ∧
    ((calculate_diff_reports tbl committee_id current_bills current_date analysis).monthly
        = none ↔
      (find_closest_scan_date tbl committee_id (current_date - 30 * daySeconds) = none ∨
       ∃ d, find_closest_scan_date tbl committee_id (current_date - 30 * daySeconds)
              = some d ∧ get_bills_at_date tbl committee_id d = [])) ∧
    (∀ rep, (calculate_diff_reports tbl committee_id current_bills current_date
        analysis).monthly = some rep →
      ∃ d, find_closest_scan_date tbl committee_id (current_date - 30 * daySeconds)
             = some d ∧ get_bills_at_date tbl committee_id d ≠ [] ∧
           rep = calculate_diff_report current_bills (get_bills_at_date tbl committee_id d)
                   current_date d "30 days" none) ∧
    (∀ t d, find_closest_scan_date tbl committee_id t = some d ↔
      ((∃ r, r ∈ tbl ∧ r.committee_id = committee_id ∧ r.generated_at = d ∧ d < t) ∧
       (∀ r, r ∈ tbl → r.committee_id = committee_id → r.generated_at < t →
         r.generated_at ≤ d))) :=
  ⟨(diffForInterval_spec tbl committee_id current_bills current_date 1 "1 day" analysis).1,
   (diffForInterval_spec tbl committee_id current_bills current_date 1 "1 day" analysis).2,
   (diffForInterval_spec tbl committee_id current_bills current_date 7 "7 days" none).1,
   (diffForInterval_spec tbl committee_id current_bills current_date 7 "7 days" none).2,
   (diffForInterval_spec tbl committee_id current_bills current_date 30 "30 days" none).1,
   (diffForInterval_spec tbl committee_id current_bills current_date 30 "30 days" none).2,
   fun t d => find_closest_scan_date_iff tbl committee_id t d⟩

/-- Witness for C4: at a table whose scans are all recent, the weekly and
monthly previous snapshots do not exist and those reports are None,
while the daily interval still finds its scan date. -/
theorem diff_reports_intervals_spec_witness :
    (calculate_diff_reports c4tbl "J33" c4curBills 200000 none).weekly = none ∧
    (calculate_diff_reports c4tbl "J33" c4curBills 200000 none).monthly = none ∧
    find_closest_scan_date c4tbl "J33" (200000 - 1 * daySeconds) = some 100 := by
  have h := diff_reports_intervals_spec c4tbl "J33" c4curBills 200000 none
  refine ⟨(h.2.2.1).mpr (Or.inl (by decide)), (h.2.2.2.2.1).mpr (Or.inl (by decide)), ?_⟩
  exact (h.2.2.2.2.2.2 (200000 - 1 * daySeconds) 100).mpr
    ⟨⟨c4row1, by decide, rfl, rfl, by decide⟩, by decide⟩
